import Mathlib

/-!
Verification development for the Kaiten→Planka migration engine
(`migrator.py`, `planka_client/client.py`, `src/kaiten2planka/mapping/core.py`).

Python dictionaries that cross the API boundary are modelled as association
lists `List (String × String)`; `dict.get`/`in` become association-list lookup.
HTTP and filesystem effects are modelled by explicit environments (oracles)
passed to each embedded function, and a run returns a trace of the calls it
issued together with its Python return value.
-/

namespace K2P

/-- Association-list lookup, the model of Python's `d.get(k)` / `k in d`. -/
def dictGet (d : List (String × String)) (k : String) : Option String :=
  match d with
  | [] => none
  | (k', v) :: rest => if k' = k then some v else dictGet rest k

/-- Python-dict insertion: replace in place when the key exists (keeping the
original position, as CPython dicts do), otherwise append. -/
def dictInsert (d : List (Nat × String)) (k : Nat) (v : String) : List (Nat × String) :=
  match d with
  | [] => [(k, v)]
  | (k', v') :: rest => if k' = k then (k, v) :: rest else (k', v') :: dictInsert rest k v

/-- Lookup in a `Nat`-keyed model dict. -/
def natDictGet (d : List (Nat × String)) (k : Nat) : Option String :=
  match d with
  | [] => none
  | (k', v) :: rest => if k' = k then some v else natDictGet rest k

/-! ## Target Writer payloads (`planka_client/client.py`)

`create_project` (lines 34–62) and `create_board` (lines 91–119) build the
JSON body sent to the target by hand.  The payload builders below are the
exact `data = {...}` dictionaries of the source; positions are rendered to
strings only for the uniform association-list model. -/

/-- The `data` dict of `PlankaClient.create_project`: `{"name": name, "type": type}`.
The `description` parameter of `create_project` is accepted but not placed in
the payload. -/
def create_project_payload (name : String) (description : String) (type_ : String) :
    List (String × String) :=
  let _ := description
  [("name", name), ("type", type_)]

/-- The `data` dict of `PlankaClient.create_board`:
`{"name": name, "position": position}`.  The `description` parameter is
accepted but not placed in the payload. -/
def create_board_payload (name : String) (description : String) (position : Nat) :
    List (String × String) :=
  let _ := description
  [("name", name), ("position", toString position)]

/-! ## Target Writer calls and their result shape (`planka_client/client.py`)

Each creation call wraps `requests.post` in a `try/except`, returns
`{'id': item.get('id'), 'name': item.get('name')}` on HTTP 200/201 and the
empty dict `{}` on any other status or any exception.  The HTTP layer is an
explicit oracle: either a response (status, parsed `item` dict, raw body text)
or a raised exception. -/

/-- Outcome of a `requests.post` call: a response, or a raised exception. -/
inductive Post where
  | resp (status : Nat) (item : List (String × Option String)) (text : String)
  | exc (msg : String)
deriving Repr, DecidableEq

/-- A Python dict whose values may be `None`, the shape of parsed JSON items
and of the dicts these client methods return. -/
abbrev PyDict := List (String × Option String)

/-- `d.get(k)` on a `PyDict`: `none` when the key is absent, and the stored
value (itself possibly `None`) when present — both collapse under `.join`
exactly as Python's `d.get(k)` returns `None` in both cases. -/
def pyGet (d : PyDict) (k : String) : Option (Option String) :=
  match d with
  | [] => none
  | (k', v) :: rest => if k' = k then some v else pyGet rest k

/-- `PlankaClient.create_project` (client.py 34–62): posts
`create_project_payload`; on 200/201 returns the id/name projection of
`result['item']`, otherwise (non-2xx status or exception) returns `{}`. -/
def create_project (post : Post) (name : String) (description : String)
    (type_ : String) : PyDict :=
  let _payload := create_project_payload name description type_
  match post with
  | .exc _ => []
  | .resp status item _text =>
    if status = 200 ∨ status = 201 then
      [("id", (pyGet item "id").join), ("name", (pyGet item "name").join)]
    else []

/-- `PlankaClient.create_card` (client.py 209–239): the payload replaces an
empty description by a single space; on 200/201 returns the id/name
projection of `result['item']`, otherwise `{}`. -/
def create_card (post : Post) (name : String) (description : String) : PyDict :=
  let _payload : List (String × String) :=
    [("name", name),
     ("description", if description = "" then " " else description),
     ("position", toString (65535 : Nat)), ("type", "project")]
  match post with
  | .exc _ => []
  | .resp status item _text =>
    if status = 200 ∨ status = 201 then
      [("id", (pyGet item "id").join), ("name", (pyGet item "name").join)]
    else []

/-- `PlankaClient.create_board` (client.py 91–119): posts
`create_board_payload`; on 200/201 returns the id/name projection of
`result['item']`, otherwise (non-2xx status or exception) returns `{}`. -/
def create_board (post : Post) (name : String) (description : String)
    (position : Nat) : PyDict :=
  let _payload := create_board_payload name description position
  match post with
  | .exc _ => []
  | .resp status item _text =>
    if status = 200 ∨ status = 201 then
      [("id", (pyGet item "id").join), ("name", (pyGet item "name").join)]
    else []

/-- `PlankaClient.create_list` (client.py 148–177): posts
`{"name","position","type"}`; on 200/201 returns the id/name projection of
`result['item']`, otherwise `{}`. -/
def create_list (post : Post) (name : String) (position : Nat)
    (type_ : String) : PyDict :=
  let _payload : List (String × String) :=
    [("name", name), ("position", toString position), ("type", type_)]
  match post with
  | .exc _ => []
  | .resp status item _text =>
    if status = 200 ∨ status = 201 then
      [("id", (pyGet item "id").join), ("name", (pyGet item "name").join)]
    else []

/-- A Python call result that distinguishes a returned value from an
exception that escaped the callee. -/
inductive PyResult (α : Type) where
  | ret (v : α)
  | raised (msg : String)
deriving Repr, DecidableEq

/-- The string encoding of a Python bool inside a `PyDict` value. -/
def pyBool (b : Bool) : String := if b then "True" else "False"

/-- Oracle for one `create_task_list` call (client.py 863–927):
whether `_get_card_by_id` found the card (it never raises — it catches
everything and returns `None`); the outcome of `card.add_task` plus
`card.refresh` (`none`: raised; `some none`: returned an object without an
`id` attribute; `some (some tid)`: object with id `tid` echoing the requested
name); and the two possible fallback `requests.post` calls — the first sits
inside the `try`, the second inside the `except` handler. -/
structure TaskListEnv where
  cardFound : Bool
  addTask : Option (Option String)
  post1 : Post
  post2 : Post

/-- The response handling shared by both fallback posts of
`create_task_list`: on 200/201 with a truthy id and a matching (or empty
requested) name, the id/name record; otherwise `{}`. -/
def taskListPostResult (status : Nat) (item : List (String × Option String))
    (name : String) : PyDict :=
  if status = 200 ∨ status = 201 then
    match (pyGet item "id").join with
    | some iid =>
      if iid ≠ "" ∧ ((pyGet item "name").join = some name ∨ name = "") then
        [("id", some iid), ("name", (pyGet item "name").join)]
      else []
    | none => []
  else []

/-- The `except` handler of `create_task_list` (client.py 909–927): its
fallback `requests.post` is not guarded by any `try`, so an exception there
escapes the method. -/
def taskListExceptHandler (env : TaskListEnv) (name : String) : PyResult PyDict :=
  match env.post2 with
  | .exc m => .raised m
  | .resp status item _text => .ret (taskListPostResult status item name)

/-- `PlankaClient.create_task_list` (client.py 863–927). -/
def create_task_list (env : TaskListEnv) (name : String) : PyResult PyDict :=
  if env.cardFound = false then
    match env.post1 with
    | .exc _ => taskListExceptHandler env name     -- caught by the outer `except`
    | .resp status item _text => .ret (taskListPostResult status item name)
  else
    match env.addTask with
    | none => taskListExceptHandler env name       -- `add_task`/`refresh` raised
    | some none => .ret [("name", some name)]      -- "created but no ID returned"
    | some (some tid) => .ret [("id", some tid), ("name", some name)]

/-- Oracle for one `create_task_in_list` call (client.py 929–995), shaped
like `TaskListEnv` for the task-item creator. -/
structure TaskItemEnv where
  taskListFound : Bool
  addTaskItem : Option (Option String)
  post1 : Post
  post2 : Post

/-- The response handling shared by both fallback posts of
`create_task_in_list`: on 200/201 with a truthy id, a matching (or empty
requested) name and a matching `isCompleted` flag, the full record;
otherwise `{}`.  Python bools inside the JSON item are encoded as the
strings `"True"`/`"False"`. -/
def taskItemPostResult (status : Nat) (item : List (String × Option String))
    (name : String) (is_completed : Bool) : PyDict :=
  if status = 200 ∨ status = 201 then
    match (pyGet item "id").join with
    | some iid =>
      let itemDone : Bool :=
        match (pyGet item "isCompleted").join with
        | some s => s = "True"
        | none => false
      if iid ≠ "" ∧ ((pyGet item "name").join = some name ∨ name = "") ∧
          itemDone = is_completed then
        [("id", some iid), ("name", (pyGet item "name").join),
         ("isCompleted", some (pyBool itemDone))]
      else []
    | none => []
  else []

/-- The `except` handler of `create_task_in_list` (client.py 977–995): like
`create_task_list`'s, its fallback `requests.post` can raise out of the
method. -/
def taskItemExceptHandler (env : TaskItemEnv) (name : String)
    (is_completed : Bool) : PyResult PyDict :=
  match env.post2 with
  | .exc m => .raised m
  | .resp status item _text => .ret (taskItemPostResult status item name is_completed)

/-- `PlankaClient.create_task_in_list` (client.py 929–995). -/
def create_task_in_list (env : TaskItemEnv) (name : String)
    (is_completed : Bool) : PyResult PyDict :=
  if env.taskListFound = false then
    match env.post1 with
    | .exc _ => taskItemExceptHandler env name is_completed
    | .resp status item _text => .ret (taskItemPostResult status item name is_completed)
  else
    match env.addTaskItem with
    | none => taskItemExceptHandler env name is_completed
    | some none => .ret [("name", some name), ("isCompleted", some (pyBool is_completed))]
    | some (some tid) =>
      .ret [("id", some tid), ("name", some name),
            ("isCompleted", some (pyBool is_completed))]

/-- Modelled from the spec: the claimed Target Writer contract — the returned
value either contains the created target identifier, or is a typed failure
that carries, among its fields, the raw server message (alongside a
status-derived classification). -/
def claimedWriterResult (rawMsg : String) (r : PyDict) : Prop :=
  (∃ v, (pyGet r "id").join = some v) ∨ (∃ k, (pyGet r k).join = some rawMsg)

/-- The empty dict holds nothing under any key. -/
theorem pyGet_nil (k : String) : pyGet [] k = none := rfl

/-! ## The datetime mapper (`src/kaiten2planka/mapping/core.py`, `_convert_datetime`)

`_convert_datetime` strips trailing `'Z'`, parses with
`datetime.fromisoformat`, and re-renders with
`dt.isoformat(timespec='milliseconds') + 'Z'`; `None`/empty input and parse
failures yield `None`.  The embedding models CPython datetimes with an
optional UTC-offset (in minutes), `fromisoformat` on the ISO-8601 subset
`YYYY-MM-DD[{T| }hh:mm[:ss[.f{1..6}]]][±hh:mm]`, and `isoformat`'s
millisecond rendering which keeps the offset suffix for aware datetimes. -/

/-- A CPython `datetime`: calendar fields plus an optional fixed UTC offset
in minutes (`None` = naive). -/
structure PyDateTime where
  year : Nat
  month : Nat
  day : Nat
  hour : Nat
  minute : Nat
  second : Nat
  microsecond : Nat
  tzMinutes : Option Int
deriving Repr, DecidableEq

/-- Read exactly `n` leading digits as a number, returning the rest. -/
def parseDigits (cs : List Char) (n : Nat) : Option (Nat × List Char) :=
  let pre := cs.take n
  if pre.length = n ∧ pre.all Char.isDigit then
    some (pre.foldl (fun a c => a * 10 + (c.toNat - 48)) 0, cs.drop n)
  else none

/-- Consume one expected character. -/
def expectChar (cs : List Char) (c : Char) : Option (List Char) :=
  match cs with
  | c' :: rest => if c' = c then some rest else none
  | [] => none

/-- Days in a month under the Gregorian leap rule (CPython validates day
ranges exactly). -/
def daysInMonth (y m : Nat) : Nat :=
  if m = 2 then
    if y % 4 = 0 ∧ (y % 100 ≠ 0 ∨ y % 400 = 0) then 29 else 28
  else if m = 4 ∨ m = 6 ∨ m = 9 ∨ m = 11 then 30
  else 31

/-- Parse a `±hh:mm` UTC-offset suffix (must consume the whole rest). -/
def parseOffset (cs : List Char) : Option Int :=
  match cs with
  | sign :: rest =>
    if sign = '+' ∨ sign = '-' then
      match parseDigits rest 2 with
      | none => none
      | some (h, rest) =>
        match expectChar rest ':' with
        | none => none
        | some rest =>
          match parseDigits rest 2 with
          | none => none
          | some (m, rest) =>
            if rest = [] ∧ h ≤ 23 ∧ m ≤ 59 then
              let total : Int := (h * 60 + m : Nat)
              some (if sign = '-' then -total else total)
            else none
    else none
  | [] => none

/-- Parse a fractional-second part of 1–6 digits into microseconds, and then
an optional offset; `cs` starts right after the `'.'`. -/
def parseFracAndOffset (cs : List Char) : Option (Nat × Option Int) :=
  let ds := cs.takeWhile Char.isDigit
  let rest := cs.dropWhile Char.isDigit
  if 1 ≤ ds.length ∧ ds.length ≤ 6 then
    let val := ds.foldl (fun a c => a * 10 + (c.toNat - 48)) 0
    let micro := val * 10 ^ (6 - ds.length)
    match rest with
    | [] => some (micro, none)
    | _ =>
      match parseOffset rest with
      | some off => some (micro, some off)
      | none => none
  else none

/-- Parse the `hh:mm[:ss[.frac]][±hh:mm]` time part. -/
def parseTime (cs : List Char) : Option (Nat × Nat × Nat × Nat × Option Int) :=
  match parseDigits cs 2 with
  | none => none
  | some (h, cs) =>
    match expectChar cs ':' with
    | none => none
    | some cs =>
      match parseDigits cs 2 with
      | none => none
      | some (mi, cs) =>
        if h ≤ 23 ∧ mi ≤ 59 then
          match cs with
          | [] => some (h, mi, 0, 0, none)
          | ':' :: cs =>
            match parseDigits cs 2 with
            | none => none
            | some (s, cs) =>
              if s ≤ 59 then
                match cs with
                | [] => some (h, mi, s, 0, none)
                | '.' :: cs =>
                  match parseFracAndOffset cs with
                  | some (us, off) => some (h, mi, s, us, off)
                  | none => none
                | _ =>
                  match parseOffset cs with
                  | some off => some (h, mi, s, 0, some off)
                  | none => none
              else none
          | _ =>
            match parseOffset cs with
            | some off => some (h, mi, 0, 0, some off)
            | none => none
        else none

/-- `datetime.fromisoformat` on the ISO-8601 subset used by the mapper;
`none` models the `ValueError` the caller catches. -/
def fromisoformat (s : String) : Option PyDateTime :=
  let cs := s.toList
  match parseDigits cs 4 with
  | none => none
  | some (y, cs) =>
    match expectChar cs '-' with
    | none => none
    | some cs =>
      match parseDigits cs 2 with
      | none => none
      | some (mo, cs) =>
        match expectChar cs '-' with
        | none => none
        | some cs =>
          match parseDigits cs 2 with
          | none => none
          | some (d, cs) =>
            if 1 ≤ mo ∧ mo ≤ 12 ∧ 1 ≤ d ∧ d ≤ daysInMonth y mo then
              match cs with
              | [] => some ⟨y, mo, d, 0, 0, 0, 0, none⟩
              | sep :: rest =>
                if sep = 'T' ∨ sep = ' ' then
                  match parseTime rest with
                  | some (h, mi, s, us, off) => some ⟨y, mo, d, h, mi, s, us, off⟩
                  | none => none
                else none
            else none

/-- Zero-pad a number to width `w`. -/
def padNum (w : Nat) (n : Nat) : String :=
  let s := toString n
  String.mk (List.replicate (w - s.length) '0') ++ s

/-- The `±hh:mm` suffix `isoformat` appends for an aware datetime
(empty for a naive one). -/
def offsetSuffix : Option Int → String
  | none => ""
  | some off =>
    let sign := if off < 0 then "-" else "+"
    let a := off.natAbs
    sign ++ padNum 2 (a / 60) ++ ":" ++ padNum 2 (a % 60)

/-- `dt.isoformat(timespec='milliseconds')`: date, `'T'`, time with the
microseconds truncated to milliseconds, then the offset suffix if aware. -/
def isoformatMs (dt : PyDateTime) : String :=
  padNum 4 dt.year ++ "-" ++ padNum 2 dt.month ++ "-" ++ padNum 2 dt.day ++ "T" ++
  padNum 2 dt.hour ++ ":" ++ padNum 2 dt.minute ++ ":" ++ padNum 2 dt.second ++ "." ++
  padNum 3 (dt.microsecond / 1000) ++ offsetSuffix dt.tzMinutes

/-- Python's `s.rstrip('Z')`: drop every trailing `'Z'`. -/
def rstripZ (s : String) : String :=
  String.mk ((s.toList.reverse.dropWhile (fun c => c = 'Z')).reverse)

/-- `_convert_datetime` (mapping/core.py 41–51): falsy input maps to `None`;
otherwise parse after stripping trailing `'Z'`s, re-render with milliseconds
and append `'Z'`; a parse failure (the caught `ValueError`/`TypeError`) maps
to `None`. -/
def convert_datetime (dt_str : Option String) : Option String :=
  match dt_str with
  | none => none
  | some s =>
    if s = "" then none
    else
      match fromisoformat (rstripZ s) with
      | none => none
      | some dt => some (isoformatMs dt ++ "Z")

/-- Modelled from the spec: "a single canonical ISO-8601-with-milliseconds-UTC
string", i.e. exactly `YYYY-MM-DDThh:mm:ss.mmmZ` — 24 characters, digits in
the date/time/millisecond positions, the literal separators, and the final
`'Z'` directly after the milliseconds. -/
def isCanonicalIsoMsUtc (s : String) : Bool :=
  let cs := s.toList
  cs.length = 24 &&
  (List.range 24).all (fun i =>
    let c := cs.getD i ' '
    if i = 4 ∨ i = 7 then c = '-'
    else if i = 10 then c = 'T'
    else if i = 13 ∨ i = 16 then c = ':'
    else if i = 19 then c = '.'
    else if i = 23 then c = 'Z'
    else c.isDigit)

/-! ## User migration (`migrator.py`, `KaitenToPlankaMigrator.migrate_users`)

`migrate_users` builds the dedup set
`planka_emails = {u['email'] for u in planka_client.get_users() if 'email' in u}`,
then for each Kaiten user skips on missing/duplicate email, else calls
`planka_client.create_user` and records the id mapping on success.
`PlankaClient.get_users` (client.py 342–349) projects each server-side user
to `{'id': u.id, 'name': u.name, 'username': u.username}`. -/

/-- A Kaiten user as read by `migrate_users` (`id`, optional `email`,
`full_name`). -/
structure KaitenUser where
  id : Nat
  email : Option String
  full_name : String
deriving Repr, DecidableEq

/-- A Planka server-side user account, which does have an email. -/
structure PlankaUser where
  id : String
  name : String
  username : String
  email : String
deriving Repr, DecidableEq

/-- `PlankaClient.get_users` (client.py 342–349): the dict built per user is
`{'id': u.id, 'name': u.name, 'username': u.username}` — no `'email'` key. -/
def PlankaClient.get_users (server_users : List PlankaUser) :
    List (List (String × String)) :=
  server_users.map (fun u => [("id", u.id), ("name", u.name), ("username", u.username)])

/-- Outcome oracle for `planka_client.create_user`: the created Planka user id,
or `none` when the call raised or returned a record without `'id'`. -/
structure UserEnv where
  create_user : Nat → Option String

/-- Trace of one `migrate_users` run: the `(full_name, email)` of each
`create_user` call issued, and the resulting `kaiten_to_planka_user_map`. -/
structure UsersRun where
  createCalls : List (String × String)
  userMap : List (Nat × String)
deriving Repr, DecidableEq

/-- `KaitenToPlankaMigrator.migrate_users` (migrator.py 23–64). -/
def migrate_users (env : UserEnv) (kaiten_users : List KaitenUser)
    (planka_users : List (List (String × String))) : UsersRun :=
  let planka_emails := planka_users.filterMap (fun u => dictGet u "email")
  kaiten_users.foldl (fun acc u =>
    match u.email with
    | none => acc
    | some e =>
      if e = "" then acc                             -- `if not email`
      else if e ∈ planka_emails then acc             -- dedup-set skip
      else
        let acc := { acc with createCalls := acc.createCalls ++ [(u.full_name, e)] }
        match env.create_user u.id with
        | some pid => { acc with userMap := dictInsert acc.userMap u.id pid }
        | none => acc) ⟨[], []⟩

/-- C1 scenario: the target already holds a user with email `a@b.c`, and the
source holds two distinct users with that same email. -/
def c1_server_users : List PlankaUser := [⟨"9", "Pre Existing", "pre", "a@b.c"⟩]

/-- The two duplicate-email source users of the C1 scenario. -/
def c1_kaiten_users : List KaitenUser :=
  [⟨1, some "a@b.c", "Alice"⟩, ⟨2, some "a@b.c", "Alicia"⟩]

/-- An environment in which every `create_user` call succeeds. -/
def c1_env : UserEnv := ⟨fun n => some ("p" ++ toString n)⟩

/-! ## Comment migration (`migrator.py`, `migrate_comments`;
`planka_client/client.py`, `create_comment`)

For each comment with non-empty text, the author name is resolved via
`get_user_by_id` (falling back to `"Unknown User"`), the content
`f"[{author_name}] {comment_text}"` is built and passed to
`PlankaClient.create_comment` — whose body (client.py 817–829) only logs a
warning and returns `{}`. -/

/-- A Kaiten comment as read by `migrate_comments`: `text` (missing modelled
as `""`, matching `comment.get('text','')`) and optional `author_id`. -/
structure KaitenComment where
  text : String
  author_id : Option Nat
deriving Repr, DecidableEq

/-- Oracle for `kaiten_client.get_user_by_id`: `none` when the lookup raised,
otherwise the returned dict (`[]` models the `{}` returned on HTTP error,
which is falsy in the caller). -/
structure CommentEnv where
  get_user_by_id : Nat → Option (List (String × String))

/-- The author-name resolution of migrator.py 264–274: a falsy `author_id`,
a failed lookup, a falsy user dict, or a user without `full_name` all yield
`"Unknown User"`. -/
def resolveAuthor (env : CommentEnv) (author_id : Option Nat) : String :=
  match author_id with
  | none => "Unknown User"
  | some aid =>
    if aid = 0 then "Unknown User"                  -- `if author_id:` is falsy on 0
    else
      match env.get_user_by_id aid with
      | none => "Unknown User"
      | some d =>
        if d = [] then "Unknown User"               -- `if kaiten_user:` falsy on {}
        else (dictGet d "full_name").getD "Unknown User"

/-- `PlankaClient.create_comment` (client.py 817–829): logs a warning and
unconditionally returns `{}` — no request is made. -/
def PlankaClient.create_comment (card_id : String) (content : String) : PyDict :=
  let _ := card_id
  let _ := content
  []

/-- Trace of one `migrate_comments` run: the contents passed to
`create_comment`, and the comments confirmed created (result truthy with an
`'id'`). -/
structure CommentsRun where
  commentCalls : List String
  created : List String
deriving Repr, DecidableEq

/-- One iteration of the comment loop (migrator.py 257–291). -/
def commentStep (env : CommentEnv) (acc : CommentsRun) (c : KaitenComment) :
    CommentsRun :=
  if c.text = "" then acc                           -- `if not comment_text: continue`
  else
    let content := "[" ++ resolveAuthor env c.author_id ++ "] " ++ c.text
    let acc := { acc with commentCalls := acc.commentCalls ++ [content] }
    let result := PlankaClient.create_comment "card" content
    match (pyGet result "id").join with
    | some cid => { acc with created := acc.created ++ [cid] }
    | none => acc                                   -- `{}` is falsy: warning, skip

/-- `KaitenToPlankaMigrator.migrate_comments` (migrator.py 252–295). -/
def migrate_comments (env : CommentEnv) (comments : List KaitenComment) :
    CommentsRun :=
  comments.foldl (commentStep env) ⟨[], []⟩

/-! ## List and card migration (`migrator.py`, `migrate_lists_and_cards`)

Phase 1 creates one Planka list per Kaiten column at position `i * 65535`,
recording successes in `column_to_list_map`.  If that map is empty, a single
fallback `create_list(name="Default List")` is issued (default position
65535); if *that* fails the function returns early, before the card loop.
The card loop resolves each card's target list — mapped column, else first
map value (`next(iter(...))`), else the default list — and calls
`create_card`. -/

/-- A Kaiten column as read by the list phase. -/
structure KaitenColumn where
  id : Nat
  title : String
deriving Repr, DecidableEq

/-- A Kaiten card as read by the card phase; `column_id = none` models the
`'column_id' in kaiten_card` check failing. -/
structure KaitenCard where
  id : Nat
  title : String
  column_id : Option Nat
deriving Repr, DecidableEq

/-- Outcome oracle for one board's migration: `listOutcome i` is the Planka
list id created for the `i`-th column (`none`: the call raised or returned a
record without `'id'`); `defaultOutcome` is the same for the fallback list;
`cardOutcome` maps a Kaiten card id to the created Planka card id. -/
structure BoardEnv where
  listOutcome : Nat → Option String
  defaultOutcome : Option String
  cardOutcome : Nat → Option String

/-- Trace of one `migrate_lists_and_cards` run. -/
structure BoardRun where
  /-- every `create_list` call issued, as `(name, position)` -/
  listCalls : List (String × Nat)
  /-- the `column_to_list_map` after the column phase -/
  column_to_list_map : List (Nat × String)
  /-- the fallback list id, when the fallback call was made and succeeded -/
  default_list_id : Option String
  /-- `true` when the fallback creation failed and the function returned
  before the card loop -/
  aborted : Bool
  /-- every `create_card` call issued, as `(kaiten card id, target list id)` -/
  cardCalls : List (Nat × String)
  /-- cards confirmed created, as `(planka card id, target list id)` -/
  createdCards : List (String × String)
deriving Repr, DecidableEq

/-- The Planka lists that exist on the board after the run: the successfully
created per-column lists in insertion order, then the fallback list if any. -/
def BoardRun.boardLists (r : BoardRun) : List String :=
  r.column_to_list_map.map Prod.snd ++
    (match r.default_list_id with | some d => [d] | none => [])

/-- One iteration of the column loop (migrator.py 76–89): issue the
`create_list` call, and record the mapping on success. -/
def listStep (env : BoardEnv) (acc : List (String × Nat) × List (Nat × String))
    (p : Nat × KaitenColumn) : List (String × Nat) × List (Nat × String) :=
  let (i, col) := p
  let calls := acc.1 ++ [(col.title, i * 65535)]
  match env.listOutcome i with
  | some lid => (calls, dictInsert acc.2 col.id lid)
  | none => (calls, acc.2)

/-- The target-list resolution of migrator.py 113–122: the mapped list when
the card's `column_id` is mapped, else the first map value, else the default
list. -/
def targetListFor (cmap : List (Nat × String)) (dflt : Option String)
    (card : KaitenCard) : Option String :=
  match card.column_id.bind (natDictGet cmap) with
  | some l => some l
  | none =>
    match cmap with
    | (_, l) :: _ => some l
    | [] => dflt

/-- One iteration of the card loop (migrator.py 108–149): issue the
`create_card` call on the resolved list, and record the created card on
success. -/
def cardStep (env : BoardEnv) (cmap : List (Nat × String)) (dflt : Option String)
    (acc : List (Nat × String) × List (String × String)) (card : KaitenCard) :
    List (Nat × String) × List (String × String) :=
  match targetListFor cmap dflt card with
  | none => acc          -- unreachable in the real flow (guarded by the early return)
  | some tl =>
    let calls := acc.1 ++ [(card.id, tl)]
    match env.cardOutcome card.id with
    | some cid => (calls, acc.2 ++ [(cid, tl)])
    | none => (calls, acc.2)

/-- `KaitenToPlankaMigrator.migrate_lists_and_cards` (migrator.py 67–149). -/
def migrate_lists_and_cards (env : BoardEnv) (cols : List KaitenColumn)
    (cards : List KaitenCard) : BoardRun :=
  let pr := cols.enum.foldl (listStep env) ([], [])
  let calls1 := pr.1
  let cmap := pr.2
  if cmap = [] then
    let calls2 := calls1 ++ [("Default List", 65535)]
    match env.defaultOutcome with
    | none =>
      { listCalls := calls2, column_to_list_map := cmap, default_list_id := none,
        aborted := true, cardCalls := [], createdCards := [] }
    | some did =>
      let cr := cards.foldl (cardStep env cmap (some did)) ([], [])
      { listCalls := calls2, column_to_list_map := cmap, default_list_id := some did,
        aborted := false, cardCalls := cr.1, createdCards := cr.2 }
  else
    let cr := cards.foldl (cardStep env cmap none) ([], [])
    { listCalls := calls1, column_to_list_map := cmap, default_list_id := none,
      aborted := false, cardCalls := cr.1, createdCards := cr.2 }

/-- The `create_list` calls issued by the column phase: one per column, in
order, at position `i * 65535` — independent of any outcome. -/
def columnListCalls (cols : List KaitenColumn) : List (String × Nat) :=
  cols.enum.map (fun p => (p.2.title, p.1 * 65535))

/-! ## Attachment migration (`migrator.py`, `migrate_attachments`;
`planka_client/client.py`, `upload_attachment`)

Per attachment: skip without URL; `requests.get`; on 200, skip when the
declared `content-length` exceeds 10 MiB (before any temporary file exists);
else write a `NamedTemporaryFile(delete=False)`, re-check the actual size
(`os.unlink` + skip when over the ceiling), else call `upload_attachment` —
which never raises — and `os.unlink` the temporary file right after it. -/

/-- A Kaiten attachment as read by `migrate_attachments`. -/
structure KaitenAttachment where
  url : Option String
  name : String
deriving Repr, DecidableEq

/-- The download result: HTTP status, the declared numeric `content-length`
header when present, and the actual size of the downloaded body. -/
structure DownloadResp where
  status : Nat
  content_length : Option Nat
  size : Nat
deriving Repr, DecidableEq

/-- Oracle for one attachment transfer: the `requests.get` outcome (`none` =
the call raised) and the server-side upload outcome (`none` = Planka rejected
the POST). -/
structure AttachEnv where
  download : Option DownloadResp
  uploadOutcome : Option String

/-- The 10 MiB ceiling (`10 * 1024 * 1024` in both migrator.py and
client.py). -/
def ATTACHMENT_SIZE_LIMIT : Nat := 10 * 1024 * 1024

/-- Trace of one attachment transfer: whether a temporary file was created,
whether it still exists when the iteration ends, how many
`upload_attachment` calls were issued, and whether an upload succeeded. -/
structure AttachRun where
  tempCreated : Bool
  tempExistsAfter : Bool
  uploadCalls : Nat
  uploaded : Bool
deriving Repr, DecidableEq

/-- `PlankaClient.upload_attachment` (client.py 297–340): re-checks the file
size — returning `{}` past the ceiling — then posts the multipart request,
catching every exception; it never raises. -/
def upload_attachment (env : AttachEnv) (file_size : Nat) : Option String :=
  if file_size > ATTACHMENT_SIZE_LIMIT then none
  else env.uploadOutcome

/-- One iteration of the attachment loop (migrator.py 197–248). -/
def process_attachment (env : AttachEnv) (att : KaitenAttachment) : AttachRun :=
  match att.url with
  | none => ⟨false, false, 0, false⟩      -- "has no URL": warn, next attachment
  | some _ =>
    match env.download with
    | none => ⟨false, false, 0, false⟩    -- requests.get raised: caught, logged
    | some resp =>
      if resp.status = 200 then
        let headerSkip : Bool :=
          match resp.content_length with
          | some n => decide (n > ATTACHMENT_SIZE_LIMIT)
          | none => false
        if headerSkip then
          ⟨false, false, 0, false⟩        -- skip before the tempfile is created
        else if resp.size > ATTACHMENT_SIZE_LIMIT then
          ⟨true, false, 0, false⟩         -- os.unlink(tmp) then continue
        else
          let result := upload_attachment env resp.size
          ⟨true, false, 1, result.isSome⟩ -- os.unlink(tmp) right after upload
      else ⟨false, false, 0, false⟩       -- non-200 download: logged, skip

/-! ## Cascaded deletion (`planka_client/client.py`,
`delete_board_with_contents` 514–630 and `delete_project` 632–746)

Per-entity deletion outcomes are an oracle; a run records every delete
attempt and the returned boolean. -/

/-- Outcome of one `.delete()` call: success, an `HTTPError` with a status,
or a non-HTTP exception. -/
inductive DelOutcome where
  | ok
  | httpErr (status : Nat)
  | exc
deriving Repr, DecidableEq

/-- A Planka card as seen by the deletion cascade. -/
structure PCard where
  id : String
deriving Repr, DecidableEq

/-- A Planka list with its cards. -/
structure PList where
  id : String
  cards : List PCard
deriving Repr, DecidableEq

/-- A Planka board with its lists. -/
structure PBoard where
  id : String
  lists : List PList
deriving Repr, DecidableEq

/-- Oracle for one `delete_board_with_contents` run: deletion outcomes per
card/list/board id, and whether the board is still found by the re-lookup
just before its own deletion. -/
structure DeleteEnv where
  cardDel : String → DelOutcome
  listDel : String → DelOutcome
  boardFoundAgain : Bool
  boardDel : String → DelOutcome

/-- Trace of one `delete_board_with_contents` run. -/
structure BoardDeleteRun where
  cardAttempts : List String
  listAttempts : List String
  boardAttempts : Nat
  result : Bool
deriving Repr, DecidableEq

/-- The card deletion step (client.py 557–571): a 404 logs a warning, any
other `HTTPError` or exception logs an error — every branch continues with
the next card. -/
def cardDelStep (env : DeleteEnv) (acc : List String) (c : PCard) : List String :=
  let acc := acc ++ [c.id]
  match env.cardDel c.id with
  | .ok => acc
  | .httpErr s => if s = 404 then acc else acc  -- warning vs error: both continue
  | .exc => acc

/-- The per-list step (client.py 549–588): delete the list's cards, then the
list itself; 404 and 403 log warnings, other errors log — every branch
continues with the next list. -/
def listDelStep (env : DeleteEnv) (acc : List String × List String) (l : PList) :
    List String × List String :=
  let cardAcc := l.cards.foldl (cardDelStep env) acc.1
  let listAcc := acc.2 ++ [l.id]
  match env.listDel l.id with
  | .ok => (cardAcc, listAcc)
  | .httpErr s =>
    if s = 404 then (cardAcc, listAcc)          -- already absent
    else if s = 403 then (cardAcc, listAcc)     -- forbidden: non-fatal skip
    else (cardAcc, listAcc)                     -- other: logged, continue
  | .exc => (cardAcc, listAcc)

/-- `PlankaClient.delete_board_with_contents` (client.py 514–630): a missing
board is success; delete every card of every list, then every list, then
re-find and delete the board — 404 there is success, any other failure of the
board deletion returns `False`. -/
def delete_board_with_contents (env : DeleteEnv) (board : Option PBoard) :
    BoardDeleteRun :=
  match board with
  | none => ⟨[], [], 0, true⟩                   -- "not found (already deleted)"
  | some b =>
    let acc := b.lists.foldl (listDelStep env) ([], [])
    if env.boardFoundAgain then
      match env.boardDel b.id with
      | .ok => ⟨acc.1, acc.2, 1, true⟩
      | .httpErr s => ⟨acc.1, acc.2, 1, if s = 404 then true else false⟩
      | .exc => ⟨acc.1, acc.2, 1, false⟩
    else ⟨acc.1, acc.2, 0, true⟩                -- vanished before final delete

/-- Oracle for one `delete_project` run: the lookups, the boards enumerated
at each stage, and the outcomes of the two possible project delete calls. -/
structure ProjEnv where
  present : Bool
  boards : List PBoard
  presentBeforeDelete : Bool
  projDel : DelOutcome
  presentOnRetry : Bool
  boardsOnRetry : List PBoard
  projDelRetry : DelOutcome

/-- Trace of one `delete_project` run. -/
structure ProjDeleteRun where
  /-- boards passed to `delete_board_with_contents` in the initial phase -/
  boardCascades : List String
  /-- number of `project_obj.delete()` calls issued -/
  projAttempts : Nat
  /-- boards re-deleted inside the 422 retry block -/
  retryBoardCascades : List String
  result : Bool
deriving Repr, DecidableEq

/-- `PlankaClient.delete_project` (client.py 632–746): a missing project is
success; delete the boards (failures logged, loop continues), re-find, then
delete the project — 404 is success; 422 triggers the retry block: re-find,
re-delete remaining boards, and issue exactly one more delete whose failure
(any exception, HTTP or not) falls through to `return False`; any other
error returns `False`. -/
def delete_project (env : ProjEnv) : ProjDeleteRun :=
  if env.present = false then ⟨[], 0, [], true⟩
  else
    let cascades := env.boards.map PBoard.id
    if env.presentBeforeDelete = false then ⟨cascades, 0, [], true⟩
    else
      match env.projDel with
      | .ok => ⟨cascades, 1, [], true⟩
      | .exc => ⟨cascades, 1, [], false⟩
      | .httpErr s =>
        if s = 404 then ⟨cascades, 1, [], true⟩
        else if s = 422 then
          if env.presentOnRetry then
            let retryCascades := env.boardsOnRetry.map PBoard.id
            match env.projDelRetry with
            | .ok => ⟨cascades, 2, retryCascades, true⟩
            | .httpErr _ => ⟨cascades, 2, retryCascades, false⟩
            | .exc => ⟨cascades, 2, retryCascades, false⟩
          else ⟨cascades, 1, [], false⟩      -- gone on retry: still returns False
        else ⟨cascades, 1, [], false⟩

end K2P

/-- C10: the target-writer payloads for projects and boards are independent of
the `description` argument, and contain no `description` key at all, so source
space and board descriptions are silently dropped by the migration. -/
theorem c10_description_dropped :
    (∀ name d₁ d₂ t, K2P.create_project_payload name d₁ t = K2P.create_project_payload name d₂ t) ∧
    (∀ name d₁ d₂ p, K2P.create_board_payload name d₁ p = K2P.create_board_payload name d₂ p) ∧
    (∀ name d t, K2P.dictGet (K2P.create_project_payload name d t) "description" = none) ∧
    (∀ name d p, K2P.dictGet (K2P.create_board_payload name d p) "description" = none) := by
  refine ⟨fun _ _ _ _ => rfl, fun _ _ _ _ => rfl, fun name d t => ?_, fun name d p => ?_⟩
  · simp [K2P.create_project_payload, K2P.dictGet]
  · simp [K2P.create_board_payload, K2P.dictGet]

/-- C6 counterexample: on an HTTP 422 failure, `create_project` returns the
bare empty dict, which contains neither a status-derived classification nor
the raw server message under any key — refuting the claim that failures are
returned as a typed value carrying both. -/
theorem c6_counterexample :
    K2P.create_project (.resp 422 [] "Project must not have boards") "Engineering" " " "private"
      = [] ∧
    ¬ K2P.claimedWriterResult "Project must not have boards"
        (K2P.create_project (.resp 422 [] "Project must not have boards") "Engineering" " " "private") := by
  refine ⟨rfl, ?_⟩
  intro h
  rcases h with ⟨v, hv⟩ | ⟨k, hk⟩
  · simp [K2P.create_project, K2P.pyGet] at hv
  · simp [K2P.create_project, K2P.pyGet] at hk

/-- C6 amended: the direct-HTTP creation calls — `create_project`,
`create_board`, `create_list`, `create_card` — never raise past their
boundary (they are total over responses and raised transport exceptions) and
return either an id/name record (on HTTP 200/201) or the bare empty dict;
the HTTP-status classification and raw server message are only logged, never
returned.  The plankapy-backed sub-entity creators do not satisfy this:
`create_task_list` and `create_task_in_list` return a non-empty record
carrying no identifier when the plankapy object comes back without an `id`
attribute, and raise past the boundary when the fallback `requests.post`
inside their `except` handler raises. -/
theorem c6_writer_result_shape (post : K2P.Post) (name description type_ : String)
    (position : Nat) (done : Bool)
    (tlEnv : K2P.TaskListEnv) (tiEnv : K2P.TaskItemEnv) :
    (K2P.create_project post name description type_ = [] ∨
      ∃ i n, K2P.create_project post name description type_ = [("id", i), ("name", n)]) ∧
    (K2P.create_card post name description = [] ∨
      ∃ i n, K2P.create_card post name description = [("id", i), ("name", n)]) ∧
    (K2P.create_board post name description position = [] ∨
      ∃ i n, K2P.create_board post name description position = [("id", i), ("name", n)]) ∧
    (K2P.create_list post name position type_ = [] ∨
      ∃ i n, K2P.create_list post name position type_ = [("id", i), ("name", n)]) ∧
    (tlEnv.cardFound = true → tlEnv.addTask = some none →
      K2P.create_task_list tlEnv name = .ret [("name", some name)] ∧
      K2P.pyGet [(("name" : String), some name)] "id" = none) ∧
    (tlEnv.cardFound = true → tlEnv.addTask = none →
      ∀ m, tlEnv.post2 = .exc m → K2P.create_task_list tlEnv name = .raised m) ∧
    (tiEnv.taskListFound = true → tiEnv.addTaskItem = some none →
      K2P.create_task_in_list tiEnv name done
        = .ret [("name", some name), ("isCompleted", some (K2P.pyBool done))]) ∧
    (tiEnv.taskListFound = true → tiEnv.addTaskItem = none →
      ∀ m, tiEnv.post2 = .exc m →
        K2P.create_task_in_list tiEnv name done = .raised m) := by
  refine ⟨?_, ?_, ?_, ?_, ?_, ?_, ?_, ?_⟩
  · cases post with
    | exc m => exact Or.inl rfl
    | resp status item text =>
      by_cases h : status = 200 ∨ status = 201
      · exact Or.inr ⟨(K2P.pyGet item "id").join, (K2P.pyGet item "name").join,
          by simp [K2P.create_project, h]⟩
      · exact Or.inl (by simp [K2P.create_project, h])
  · cases post with
    | exc m => exact Or.inl rfl
    | resp status item text =>
      by_cases h : status = 200 ∨ status = 201
      · exact Or.inr ⟨(K2P.pyGet item "id").join, (K2P.pyGet item "name").join,
          by simp [K2P.create_card, h]⟩
      · exact Or.inl (by simp [K2P.create_card, h])
  · cases post with
    | exc m => exact Or.inl rfl
    | resp status item text =>
      by_cases h : status = 200 ∨ status = 201
      · exact Or.inr ⟨(K2P.pyGet item "id").join, (K2P.pyGet item "name").join,
          by simp [K2P.create_board, h]⟩
      · exact Or.inl (by simp [K2P.create_board, h])
  · cases post with
    | exc m => exact Or.inl rfl
    | resp status item text =>
      by_cases h : status = 200 ∨ status = 201
      · exact Or.inr ⟨(K2P.pyGet item "id").join, (K2P.pyGet item "name").join,
          by simp [K2P.create_list, h]⟩
      · exact Or.inl (by simp [K2P.create_list, h])
  · intro h1 h2
    exact ⟨by simp [K2P.create_task_list, h1, h2], by simp [K2P.pyGet]⟩
  · intro h1 h2 m h3
    simp [K2P.create_task_list, h1, h2, K2P.taskListExceptHandler, h3]
  · intro h1 h2
    simp [K2P.create_task_in_list, h1, h2]
  · intro h1 h2 m h3
    simp [K2P.create_task_in_list, h1, h2, K2P.taskItemExceptHandler, h3]

/-- C6 witness: concrete runs of the two plankapy-backed creators — an
id-less plankapy object yields the id-less record, and an exception from the
except-handler's fallback post escapes the method. -/
theorem c6_writer_result_shape_witness :
    K2P.create_task_list ⟨true, some none, .exc "e", .exc "boom"⟩ "Checklist"
      = .ret [("name", some "Checklist")] ∧
    K2P.create_task_list ⟨true, none, .exc "e", .exc "boom"⟩ "Checklist"
      = .raised "boom" ∧
    K2P.create_task_in_list ⟨true, some none, .exc "e", .exc "boom"⟩ "Write test" false
      = .ret [("name", some "Write test"), ("isCompleted", some (K2P.pyBool false))] ∧
    K2P.create_task_in_list ⟨true, none, .exc "e", .exc "boom"⟩ "Write test" false
      = .raised "boom" :=
  ⟨((c6_writer_result_shape (.exc "z") "Checklist" " " "private" 0 false
      ⟨true, some none, .exc "e", .exc "boom"⟩
      ⟨true, some none, .exc "e", .exc "boom"⟩).2.2.2.2.1 rfl rfl).1,
   (c6_writer_result_shape (.exc "z") "Checklist" " " "private" 0 false
      ⟨true, none, .exc "e", .exc "boom"⟩
      ⟨true, none, .exc "e", .exc "boom"⟩).2.2.2.2.2.1 rfl rfl "boom" rfl,
   (c6_writer_result_shape (.exc "z") "Write test" " " "private" 0 false
      ⟨true, some none, .exc "e", .exc "boom"⟩
      ⟨true, some none, .exc "e", .exc "boom"⟩).2.2.2.2.2.2.1 rfl rfl,
   (c6_writer_result_shape (.exc "z") "Write test" " " "private" 0 false
      ⟨true, none, .exc "e", .exc "boom"⟩
      ⟨true, none, .exc "e", .exc "boom"⟩).2.2.2.2.2.2.2 rfl rfl "boom" rfl⟩

/-- Helper: the column loop issues one `create_list` call per column in
order, at position `i * 65535`, whatever the outcomes. -/
theorem listFold_calls (env : K2P.BoardEnv) :
    ∀ (l : List (Nat × K2P.KaitenColumn)) (acc : List (String × Nat) × List (Nat × String)),
      (l.foldl (K2P.listStep env) acc).1 = acc.1 ++ l.map (fun p => (p.2.title, p.1 * 65535)) := by
  intro l
  induction l with
  | nil => intro acc; simp
  | cons p rest ih =>
    intro acc
    cases h : env.listOutcome p.1 <;> simp [K2P.listStep, h, ih]

/-- Helper: the card loop issues one `create_card` call per card at the
resolved target list, and records a created card exactly when the create
succeeds. -/
theorem cardFold_spec (env : K2P.BoardEnv) (cmap : List (Nat × String))
    (dflt : Option String) :
    ∀ (cards : List K2P.KaitenCard) (acc : List (Nat × String) × List (String × String)),
      cards.foldl (K2P.cardStep env cmap dflt) acc =
        (acc.1 ++ cards.filterMap
            (fun c => (K2P.targetListFor cmap dflt c).map (fun tl => (c.id, tl))),
         acc.2 ++ cards.filterMap (fun c =>
            match K2P.targetListFor cmap dflt c, env.cardOutcome c.id with
            | some tl, some cid => some (cid, tl)
            | _, _ => none)) := by
  intro cards
  induction cards with
  | nil => intro acc; simp
  | cons c rest ih =>
    intro acc
    cases htl : K2P.targetListFor cmap dflt c with
    | none => simp [K2P.cardStep, htl, ih]
    | some tl =>
      cases hco : env.cardOutcome c.id with
      | none => simp [K2P.cardStep, htl, hco, ih]
      | some cid => simp [K2P.cardStep, htl, hco, ih]

/-- Helper: the run's `column_to_list_map` is exactly the column-phase fold
result, in every branch. -/
theorem run_cmap_eq (env : K2P.BoardEnv) (cols : List K2P.KaitenColumn)
    (cards : List K2P.KaitenCard) :
    (K2P.migrate_lists_and_cards env cols cards).column_to_list_map
      = (cols.enum.foldl (K2P.listStep env) ([], [])).2 := by
  unfold K2P.migrate_lists_and_cards
  by_cases hc : (cols.enum.foldl (K2P.listStep env) ([], [])).2 = []
  · cases hd : env.defaultOutcome <;> simp [hc, hd]
  · simp [hc]

/-- Helper: the run when the column phase produced no mapping and the
fallback creation failed — the early-return branch. -/
theorem run_empty_fail (env : K2P.BoardEnv) (cols : List K2P.KaitenColumn)
    (cards : List K2P.KaitenCard)
    (hc : (cols.enum.foldl (K2P.listStep env) ([], [])).2 = [])
    (hd : env.defaultOutcome = none) :
    K2P.migrate_lists_and_cards env cols cards =
      { listCalls := K2P.columnListCalls cols ++ [("Default List", 65535)],
        column_to_list_map := [], default_list_id := none,
        aborted := true, cardCalls := [], createdCards := [] } := by
  unfold K2P.migrate_lists_and_cards
  simp [hc, hd, listFold_calls, K2P.columnListCalls]

/-- Helper: the run when the column phase produced no mapping and the
fallback creation succeeded with id `did`. -/
theorem run_empty_ok (env : K2P.BoardEnv) (cols : List K2P.KaitenColumn)
    (cards : List K2P.KaitenCard) (did : String)
    (hc : (cols.enum.foldl (K2P.listStep env) ([], [])).2 = [])
    (hd : env.defaultOutcome = some did) :
    K2P.migrate_lists_and_cards env cols cards =
      { listCalls := K2P.columnListCalls cols ++ [("Default List", 65535)],
        column_to_list_map := [], default_list_id := some did, aborted := false,
        cardCalls := cards.filterMap
          (fun c => (K2P.targetListFor [] (some did) c).map (fun tl => (c.id, tl))),
        createdCards := cards.filterMap (fun c =>
          match K2P.targetListFor [] (some did) c, env.cardOutcome c.id with
          | some tl, some cid => some (cid, tl)
          | _, _ => none) } := by
  unfold K2P.migrate_lists_and_cards
  simp [hc, hd, listFold_calls, cardFold_spec, K2P.columnListCalls]

/-- Helper: the run when the column phase produced a non-empty mapping — no
fallback call, card targets resolved against the mapping. -/
theorem run_nonempty (env : K2P.BoardEnv) (cols : List K2P.KaitenColumn)
    (cards : List K2P.KaitenCard)
    (hc : (cols.enum.foldl (K2P.listStep env) ([], [])).2 ≠ []) :
    K2P.migrate_lists_and_cards env cols cards =
      { listCalls := K2P.columnListCalls cols,
        column_to_list_map := (cols.enum.foldl (K2P.listStep env) ([], [])).2,
        default_list_id := none, aborted := false,
        cardCalls := cards.filterMap (fun c =>
          (K2P.targetListFor (cols.enum.foldl (K2P.listStep env) ([], [])).2 none c).map
            (fun tl => (c.id, tl))),
        createdCards := cards.filterMap (fun c =>
          match K2P.targetListFor (cols.enum.foldl (K2P.listStep env) ([], [])).2 none c,
              env.cardOutcome c.id with
          | some tl, some cid => some (cid, tl)
          | _, _ => none) } := by
  unfold K2P.migrate_lists_and_cards
  simp [hc, listFold_calls, cardFold_spec, K2P.columnListCalls]

/-- Helper: the comment loop appends one author-prefixed content per
non-empty comment and never records a created comment, since
`create_comment` always returns `{}`. -/
theorem commentFold_spec (env : K2P.CommentEnv) (comments : List K2P.KaitenComment) :
    ∀ acc : K2P.CommentsRun,
      comments.foldl (K2P.commentStep env) acc =
        ⟨acc.commentCalls ++ (comments.filter (fun c => c.text != "")).map
            (fun c => "[" ++ K2P.resolveAuthor env c.author_id ++ "] " ++ c.text),
         acc.created⟩ := by
  induction comments with
  | nil => intro acc; simp
  | cons c rest ih =>
    intro acc
    by_cases h : c.text = ""
    · simp [K2P.commentStep, h, ih]
    · simp [K2P.commentStep, h, K2P.PlankaClient.create_comment, K2P.pyGet, ih]

/-- C1: the user-dedup invariant is broken in the code.  The dedup set built
from `PlankaClient.get_users` is empty for every server state (the client
drops the `'email'` key), so with a target user `a@b.c` already present and
two source users sharing that email, `migrate_users` issues a `create_user`
call for both — more than one creation for one email, and a creation despite
the pre-existing target user. -/
theorem c1_user_dedup_broken :
    (∀ server_users, (K2P.PlankaClient.get_users server_users).filterMap
        (fun u => K2P.dictGet u "email") = []) ∧
    (K2P.migrate_users K2P.c1_env K2P.c1_kaiten_users
        (K2P.PlankaClient.get_users K2P.c1_server_users)).createCalls
      = [("Alice", "a@b.c"), ("Alicia", "a@b.c")] ∧
    K2P.c1_server_users.map K2P.PlankaUser.email = ["a@b.c"] := by
  refine ⟨?_, by decide, by decide⟩
  intro us
  induction us with
  | nil => rfl
  | cons u rest ih => simp [K2P.PlankaClient.get_users, K2P.dictGet] at ih ⊢

/-- C2 counterexample: a source comment with non-empty text `"Fix this"`
produces a `create_comment` call with the author-prefixed content, but no
target comment is ever created — `create_comment` (client.py 817–829)
unconditionally returns `{}`, so the claim that a target comment is created
fails. -/
theorem c2_comment_never_created :
    (K2P.migrate_comments ⟨fun _ => none⟩ [⟨"Fix this", some 7⟩]).commentCalls
      = ["[Unknown User] Fix this"] ∧
    (K2P.migrate_comments ⟨fun _ => none⟩ [⟨"Fix this", some 7⟩]).created = [] ∧
    (∀ card content, K2P.PlankaClient.create_comment card content = []) :=
  ⟨by decide, by decide, fun _ _ => rfl⟩

/-- C2 amended: for every source comment with non-empty text, the comment
sub-migration passes to the target writer a content equal to the author's
display name in square brackets followed by the original text; but the
writer's `create_comment` is a stub returning `{}`, so the set of created
target comments is empty. -/
theorem c2_author_prefix_no_creation (env : K2P.CommentEnv)
    (comments : List K2P.KaitenComment) :
    (K2P.migrate_comments env comments).commentCalls
      = (comments.filter (fun c => c.text != "")).map
          (fun c => "[" ++ K2P.resolveAuthor env c.author_id ++ "] " ++ c.text) ∧
    (K2P.migrate_comments env comments).created = [] := by
  unfold K2P.migrate_comments
  rw [commentFold_spec]
  exact ⟨by simp, rfl⟩

/-- C3 counterexample: one source column whose list creation fails, and a
failing fallback creation — exactly one fallback `create_list("Default List")`
call is issued, but the board is left with zero lists (and the function
returns before the card loop), refuting "the target board is never left with
zero lists". -/
theorem c3_counterexample :
    (K2P.migrate_lists_and_cards ⟨fun _ => none, none, fun _ => none⟩
        [⟨1, "To Do"⟩] [⟨5, "Fix bug", some 1⟩]).listCalls
      = [("To Do", 0), ("Default List", 65535)] ∧
    (K2P.migrate_lists_and_cards ⟨fun _ => none, none, fun _ => none⟩
        [⟨1, "To Do"⟩] [⟨5, "Fix bug", some 1⟩]).boardLists = [] ∧
    (K2P.migrate_lists_and_cards ⟨fun _ => none, none, fun _ => none⟩
        [⟨1, "To Do"⟩] [⟨5, "Fix bug", some 1⟩]).cardCalls = [] := by
  refine ⟨by decide, by decide, by decide⟩

/-- C3 amended: whenever the list phase ends with an empty column mapping
(zero source columns or all column creations failed), exactly one fallback
`create_list` call named "Default List" is issued; if that call succeeds the
board ends with exactly one list (the fallback), and if it fails the board is
left with zero lists and the board's cards are skipped. -/
theorem c3_default_list_fallback (env : K2P.BoardEnv) (cols : List K2P.KaitenColumn)
    (cards : List K2P.KaitenCard)
    (h : (K2P.migrate_lists_and_cards env cols cards).column_to_list_map = []) :
    (K2P.migrate_lists_and_cards env cols cards).listCalls
      = K2P.columnListCalls cols ++ [("Default List", 65535)] ∧
    (∀ did, env.defaultOutcome = some did →
      (K2P.migrate_lists_and_cards env cols cards).boardLists = [did]) ∧
    (env.defaultOutcome = none →
      (K2P.migrate_lists_and_cards env cols cards).boardLists = [] ∧
      (K2P.migrate_lists_and_cards env cols cards).cardCalls = []) := by
  rw [run_cmap_eq] at h
  cases hd : env.defaultOutcome with
  | none =>
    rw [run_empty_fail env cols cards h hd]
    exact ⟨rfl, fun did hdid => by simp [hd] at hdid, fun _ => ⟨rfl, rfl⟩⟩
  | some did =>
    have hrun := run_empty_ok env cols cards did h hd
    refine ⟨by rw [hrun], fun did' hdid' => ?_, fun hdn => by simp [hd] at hdn⟩
    obtain rfl := Option.some.inj hdid'
    rw [hrun]
    simp [K2P.BoardRun.boardLists]

/-- C4: a card whose `column_id` has no mapped target list is still sent to
`create_card` (never dropped), targeted at a list that exists on the board:
the first mapped list when the mapping is non-empty, otherwise the
synthesized default list; and when the create call succeeds the card is
recorded as created in that list.  (The hypothesis `aborted = false` excludes
the early return taken when even the fallback list could not be created.) -/
theorem c4_unmapped_card_placed (env : K2P.BoardEnv) (cols : List K2P.KaitenColumn)
    (cards : List K2P.KaitenCard) (card : K2P.KaitenCard)
    (hmem : card ∈ cards)
    (hunmapped : card.column_id.bind
      (K2P.natDictGet (K2P.migrate_lists_and_cards env cols cards).column_to_list_map) = none)
    (hab : (K2P.migrate_lists_and_cards env cols cards).aborted = false) :
    ∃ tl, (card.id, tl) ∈ (K2P.migrate_lists_and_cards env cols cards).cardCalls ∧
      tl ∈ (K2P.migrate_lists_and_cards env cols cards).boardLists ∧
      (∀ q qs, (K2P.migrate_lists_and_cards env cols cards).column_to_list_map = q :: qs →
        tl = q.2) ∧
      ((K2P.migrate_lists_and_cards env cols cards).column_to_list_map = [] →
        (K2P.migrate_lists_and_cards env cols cards).default_list_id = some tl) ∧
      (∀ cid, env.cardOutcome card.id = some cid →
        (cid, tl) ∈ (K2P.migrate_lists_and_cards env cols cards).createdCards) := by
  rw [run_cmap_eq] at hunmapped
  cases hcm : (cols.enum.foldl (K2P.listStep env) ([], [])).2 with
  | nil =>
    rw [hcm] at hunmapped
    cases hd : env.defaultOutcome with
    | none => rw [run_empty_fail env cols cards hcm hd] at hab; exact absurd hab (by simp)
    | some did =>
      have hrun := run_empty_ok env cols cards did hcm hd
      have htl : K2P.targetListFor [] (some did) card = some did := by
        simp [K2P.targetListFor, hunmapped]
      refine ⟨did, ?_, ?_, ?_, ?_, ?_⟩
      · rw [hrun]
        exact List.mem_filterMap.mpr ⟨card, hmem, by rw [htl]; rfl⟩
      · rw [hrun]; simp [K2P.BoardRun.boardLists]
      · intro q qs hq; rw [hrun] at hq; simp at hq
      · intro _; rw [hrun]
      · intro cid hcid
        rw [hrun]
        exact List.mem_filterMap.mpr ⟨card, hmem, by rw [htl, hcid]⟩
  | cons p ps =>
    rw [hcm] at hunmapped
    have hrun := run_nonempty env cols cards (by rw [hcm]; simp)
    rw [hcm] at hrun
    have htl : K2P.targetListFor (p :: ps) none card = some p.2 := by
      simp [K2P.targetListFor, hunmapped]
    refine ⟨p.2, ?_, ?_, ?_, ?_, ?_⟩
    · rw [hrun]
      exact List.mem_filterMap.mpr ⟨card, hmem, by rw [htl]; rfl⟩
    · rw [hrun]
      simp [K2P.BoardRun.boardLists]
    · intro q qs hq
      rw [hrun] at hq
      simp at hq
      rw [hq.1]
    · intro hnil; rw [hrun] at hnil; simp at hnil
    · intro cid hcid
      rw [hrun]
      exact List.mem_filterMap.mpr ⟨card, hmem, by rw [htl, hcid]⟩

/-- Helper: the card-deletion inner loop attempts every card, whatever the
outcomes. -/
theorem cardDelFold (env : K2P.DeleteEnv) :
    ∀ (cs : List K2P.PCard) (acc : List String),
      cs.foldl (K2P.cardDelStep env) acc = acc ++ cs.map K2P.PCard.id := by
  intro cs
  induction cs with
  | nil => intro acc; simp
  | cons c rest ih =>
    intro acc
    cases h : env.cardDel c.id with
    | ok => simp [K2P.cardDelStep, h, ih]
    | httpErr s => simp [K2P.cardDelStep, h, ih]
    | exc => simp [K2P.cardDelStep, h, ih]

/-- Helper: the list-deletion loop attempts every card of every list and
every list, whatever the outcomes. -/
theorem listDelFold (env : K2P.DeleteEnv) :
    ∀ (ls : List K2P.PList) (acc : List String × List String),
      ls.foldl (K2P.listDelStep env) acc =
        (acc.1 ++ ls.flatMap (fun l => l.cards.map K2P.PCard.id),
         acc.2 ++ ls.map K2P.PList.id) := by
  intro ls
  induction ls with
  | nil => intro acc; simp
  | cons l rest ih =>
    intro acc
    cases h : env.listDel l.id with
    | ok => simp [K2P.listDelStep, h, ih, cardDelFold]
    | httpErr s => simp [K2P.listDelStep, h, ih, cardDelFold]
    | exc => simp [K2P.listDelStep, h, ih, cardDelFold]

/-- C5: on every exit path of the per-attachment transfer the temporary file
no longer exists when the iteration ends; and whenever the declared
content-length or the actual downloaded size exceeds the 10 MiB ceiling, no
`upload_attachment` call is issued at all. -/
theorem c5_attachment_size_and_cleanup (env : K2P.AttachEnv) (att : K2P.KaitenAttachment) :
    (K2P.process_attachment env att).tempExistsAfter = false ∧
    (∀ resp, env.download = some resp →
      ((∃ n, resp.content_length = some n ∧ n > K2P.ATTACHMENT_SIZE_LIMIT) ∨
        resp.size > K2P.ATTACHMENT_SIZE_LIMIT) →
      (K2P.process_attachment env att).uploadCalls = 0) := by
  constructor
  · cases hu : att.url with
    | none => simp [K2P.process_attachment, hu]
    | some u =>
      cases hd : env.download with
      | none => simp [K2P.process_attachment, hu, hd]
      | some resp =>
        by_cases hs : resp.status = 200
        · cases hcl : resp.content_length with
          | none =>
            by_cases hsize : resp.size > K2P.ATTACHMENT_SIZE_LIMIT <;>
              simp [K2P.process_attachment, hu, hd, hs, hcl, hsize]
          | some n =>
            by_cases hn : n > K2P.ATTACHMENT_SIZE_LIMIT
            · simp [K2P.process_attachment, hu, hd, hs, hcl, hn]
            · by_cases hsize : resp.size > K2P.ATTACHMENT_SIZE_LIMIT <;>
                simp [K2P.process_attachment, hu, hd, hs, hcl, hn, hsize]
        · simp [K2P.process_attachment, hu, hd, hs]
  · intro resp hd hbig
    cases hu : att.url with
    | none => simp [K2P.process_attachment, hu]
    | some u =>
      by_cases hs : resp.status = 200
      · rcases hbig with ⟨n, hcl, hn⟩ | hsize
        · simp [K2P.process_attachment, hu, hd, hs, hcl, hn]
        · cases hcl : resp.content_length with
          | none => simp [K2P.process_attachment, hu, hd, hs, hcl, hsize]
          | some n =>
            by_cases hn : n > K2P.ATTACHMENT_SIZE_LIMIT <;>
              simp [K2P.process_attachment, hu, hd, hs, hcl, hn, hsize]
      · simp [K2P.process_attachment, hu, hd, hs]

/-- C5 witness: an 11 MiB attachment (declared and actual) is downloaded but
never uploaded, and the temporary file is gone when the iteration ends. -/
theorem c5_attachment_size_and_cleanup_witness :
    (K2P.process_attachment ⟨some ⟨200, some 11534336, 11534336⟩, some "A1"⟩
        ⟨some "https://k/file.bin", "file.bin"⟩).tempExistsAfter = false ∧
    (K2P.process_attachment ⟨some ⟨200, some 11534336, 11534336⟩, some "A1"⟩
        ⟨some "https://k/file.bin", "file.bin"⟩).uploadCalls = 0 :=
  ⟨(c5_attachment_size_and_cleanup _ _).1,
   (c5_attachment_size_and_cleanup _ _).2 ⟨200, some 11534336, 11534336⟩ rfl
     (Or.inl ⟨11534336, rfl, by decide⟩)⟩

/-- C7: in the board-deletion cascade, every card and every list deletion is
attempted regardless of the outcomes of its siblings (errors abort only their
own branch); the run's boolean result is determined by the board-deletion
stage alone — with HTTP 404 there treated as success — so card/list failures
(404, 403 on lists, or anything else) are non-fatal; and a 404 on the project
deletion is likewise treated as success. -/
theorem c7_cascade_error_policy (env : K2P.DeleteEnv) (b : K2P.PBoard)
    (penv : K2P.ProjEnv) :
    (K2P.delete_board_with_contents env (some b)).cardAttempts
      = b.lists.flatMap (fun l => l.cards.map K2P.PCard.id) ∧
    (K2P.delete_board_with_contents env (some b)).listAttempts
      = b.lists.map K2P.PList.id ∧
    (K2P.delete_board_with_contents env (some b)).result
      = (if env.boardFoundAgain then
           match env.boardDel b.id with
           | .ok => true
           | .httpErr s => if s = 404 then true else false
           | .exc => false
         else true) ∧
    (penv.present = true → penv.presentBeforeDelete = true →
      penv.projDel = .httpErr 404 → (K2P.delete_project penv).result = true) := by
  refine ⟨?_, ?_, ?_, ?_⟩
  · unfold K2P.delete_board_with_contents
    cases hf : env.boardFoundAgain
    · simp [listDelFold]
    · cases hb : env.boardDel b.id <;> simp [listDelFold, hb]
  · unfold K2P.delete_board_with_contents
    cases hf : env.boardFoundAgain
    · simp [listDelFold]
    · cases hb : env.boardDel b.id <;> simp [listDelFold, hb]
  · unfold K2P.delete_board_with_contents
    cases hf : env.boardFoundAgain
    · simp [listDelFold]
    · cases hb : env.boardDel b.id <;> simp [listDelFold, hb]
  · intro hp hpb h404
    unfold K2P.delete_project
    simp [hp, hpb, h404]

/-- C7 witness: with a board holding one list of one card, every deletion
outcome failing (cards raise, lists get HTTP 500) and the board deletion
returning 404, every entity is still attempted and the run reports success;
a 404 on a project deletion also reports success. -/
theorem c7_cascade_error_policy_witness :
    (K2P.delete_board_with_contents
        ⟨fun _ => .exc, fun _ => .httpErr 500, true, fun _ => .httpErr 404⟩
        (some ⟨"B", [⟨"L", [⟨"c1"⟩]⟩]⟩)).cardAttempts = ["c1"] ∧
    (K2P.delete_board_with_contents
        ⟨fun _ => .exc, fun _ => .httpErr 500, true, fun _ => .httpErr 404⟩
        (some ⟨"B", [⟨"L", [⟨"c1"⟩]⟩]⟩)).result = true ∧
    (K2P.delete_project ⟨true, [], true, .httpErr 404, false, [], .ok⟩).result = true :=
  ⟨by decide,
   by decide,
   (c7_cascade_error_policy
      ⟨fun _ => .exc, fun _ => .httpErr 500, true, fun _ => .httpErr 404⟩
      ⟨"B", [⟨"L", [⟨"c1"⟩]⟩]⟩
      ⟨true, [], true, .httpErr 404, false, [], .ok⟩).2.2.2 rfl rfl rfl⟩

/-- C8: when the project deletion hits HTTP 422 and the project is still
found on re-lookup, `delete_project` issues exactly one retry delete (two
project delete attempts in total), re-deleting the boards found at retry
first; it returns `True` exactly when the retry succeeds and `False` when
the retry also fails (any exception on the retry falls through to
`return False`). -/
theorem c8_project_delete_422_retry (env : K2P.ProjEnv)
    (hp : env.present = true) (hpb : env.presentBeforeDelete = true)
    (h422 : env.projDel = .httpErr 422) (hr : env.presentOnRetry = true) :
    (K2P.delete_project env).projAttempts = 2 ∧
    (K2P.delete_project env).retryBoardCascades = env.boardsOnRetry.map K2P.PBoard.id ∧
    (env.projDelRetry = .ok → (K2P.delete_project env).result = true) ∧
    (env.projDelRetry ≠ .ok → (K2P.delete_project env).result = false) := by
  unfold K2P.delete_project
  cases hrd : env.projDelRetry with
  | ok => simp [hp, hpb, h422, hr, hrd]
  | httpErr s => simp [hp, hpb, h422, hr, hrd]
  | exc => simp [hp, hpb, h422, hr, hrd]

/-- C8 witness: a concrete 422 run whose retry succeeds — two delete
attempts, the leftover board re-deleted first, final result `True`. -/
theorem c8_project_delete_422_retry_witness :
    (K2P.delete_project ⟨true, [⟨"B0", []⟩], true, .httpErr 422, true,
        [⟨"B1", []⟩], .ok⟩).projAttempts = 2 ∧
    (K2P.delete_project ⟨true, [⟨"B0", []⟩], true, .httpErr 422, true,
        [⟨"B1", []⟩], .ok⟩).retryBoardCascades = ["B1"] ∧
    (K2P.delete_project ⟨true, [⟨"B0", []⟩], true, .httpErr 422, true,
        [⟨"B1", []⟩], .ok⟩).result = true :=
  ⟨(c8_project_delete_422_retry _ rfl rfl rfl rfl).1,
   (c8_project_delete_422_retry _ rfl rfl rfl rfl).2.1,
   (c8_project_delete_422_retry _ rfl rfl rfl rfl).2.2.1 rfl⟩

/-- C3 witness: one source column whose list creation fails and a succeeding
fallback — the fallback call is issued after the column's call, and the board
ends with exactly the fallback list. -/
theorem c3_default_list_fallback_witness :
    (K2P.migrate_lists_and_cards ⟨fun _ => none, some "d1", fun _ => none⟩
        [⟨1, "A"⟩] []).listCalls
      = K2P.columnListCalls [⟨1, "A"⟩] ++ [("Default List", 65535)] ∧
    (K2P.migrate_lists_and_cards ⟨fun _ => none, some "d1", fun _ => none⟩
        [⟨1, "A"⟩] []).boardLists = ["d1"] :=
  ⟨(c3_default_list_fallback ⟨fun _ => none, some "d1", fun _ => none⟩
      [⟨1, "A"⟩] [] (by decide)).1,
   (c3_default_list_fallback ⟨fun _ => none, some "d1", fun _ => none⟩
      [⟨1, "A"⟩] [] (by decide)).2.1 "d1" rfl⟩

/-- C4 witness: a card referencing the unmapped column 99 on a board with one
successfully created list — the card is created in that first list. -/
theorem c4_unmapped_card_placed_witness :
    ∃ tl,
      ((K2P.KaitenCard.mk 5 "Fix bug" (some 99)).id, tl) ∈
        (K2P.migrate_lists_and_cards
          ⟨fun i => if i = 0 then some "L1" else none, none,
           fun c => if c = 5 then some "C1" else none⟩
          [⟨1, "A"⟩] [⟨5, "Fix bug", some 99⟩]).cardCalls ∧
      tl ∈ (K2P.migrate_lists_and_cards
          ⟨fun i => if i = 0 then some "L1" else none, none,
           fun c => if c = 5 then some "C1" else none⟩
          [⟨1, "A"⟩] [⟨5, "Fix bug", some 99⟩]).boardLists ∧
      (∀ q qs, (K2P.migrate_lists_and_cards
          ⟨fun i => if i = 0 then some "L1" else none, none,
           fun c => if c = 5 then some "C1" else none⟩
          [⟨1, "A"⟩] [⟨5, "Fix bug", some 99⟩]).column_to_list_map = q :: qs →
        tl = q.2) ∧
      ((K2P.migrate_lists_and_cards
          ⟨fun i => if i = 0 then some "L1" else none, none,
           fun c => if c = 5 then some "C1" else none⟩
          [⟨1, "A"⟩] [⟨5, "Fix bug", some 99⟩]).column_to_list_map = [] →
        (K2P.migrate_lists_and_cards
          ⟨fun i => if i = 0 then some "L1" else none, none,
           fun c => if c = 5 then some "C1" else none⟩
          [⟨1, "A"⟩] [⟨5, "Fix bug", some 99⟩]).default_list_id = some tl) ∧
      (∀ cid, (⟨fun i => if i = 0 then some "L1" else none, none,
           fun c => if c = 5 then some "C1" else none⟩ : K2P.BoardEnv).cardOutcome
            (K2P.KaitenCard.mk 5 "Fix bug" (some 99)).id = some cid →
        (cid, tl) ∈ (K2P.migrate_lists_and_cards
          ⟨fun i => if i = 0 then some "L1" else none, none,
           fun c => if c = 5 then some "C1" else none⟩
          [⟨1, "A"⟩] [⟨5, "Fix bug", some 99⟩]).createdCards) :=
  c4_unmapped_card_placed
    ⟨fun i => if i = 0 then some "L1" else none, none,
     fun c => if c = 5 then some "C1" else none⟩
    [⟨1, "A"⟩] [⟨5, "Fix bug", some 99⟩] ⟨5, "Fix bug", some 99⟩
    (by decide) (by decide) (by decide)

/-- C9: on the converter's own documented example input
`"2023-01-01T12:00:00.000000+00:00"`, `_convert_datetime` keeps the parsed
UTC-offset suffix and appends `'Z'` *after* it, producing
`"2023-01-01T12:00:00.000+00:00Z"` — not the canonical
ISO-8601-with-milliseconds UTC form (which the adjacent code comment says the
example should map to, `"2023-01-01T12:00:00.000Z"`). -/
theorem c9_datetime_offset_retained :
    K2P.convert_datetime (some "2023-01-01T12:00:00.000000+00:00")
      = some "2023-01-01T12:00:00.000+00:00Z" ∧
    K2P.isCanonicalIsoMsUtc "2023-01-01T12:00:00.000+00:00Z" = false ∧
    K2P.isCanonicalIsoMsUtc "2023-01-01T12:00:00.000Z" = true ∧
    K2P.convert_datetime (some "2023-01-01T12:00:00Z") = some "2023-01-01T12:00:00.000Z" ∧
    K2P.convert_datetime (some "not a date") = none ∧
    K2P.convert_datetime none = none := by
  refine ⟨by decide, by decide, by decide, by decide, by decide, rfl⟩
